import Mathlib

/-!
Verification of the client-side data-and-session consistency layer of a
multi-user todo web application (Next.js frontend).

The development shallowly embeds the TypeScript source:

* the API client module (`lib/api`): token bridge `getAuthToken`, request
  wrapper `apiRequest`, the single-slot task read cache
  (`tasksCache`/`cacheTimestamp`/`clearApiCache`/`isCacheValid`) and the six
  task operations `getTasks`, `createTask`, `updateTask`, `deleteTask`,
  `completeTask`, `uncompleteTask`;
* the dashboard controller (`app/dashboard/page.tsx`): `fetchTasks` error
  handling and `handleLogout`;
* the auth form (`components/AuthForm.tsx`): validation, the double-submit
  guard of `handleSubmit`, and `LogoutButton.handleLogout`;
* the task creation form (`components/TaskForm.tsx`): `validateTitle` and
  `handleSubmit`.

Asynchronous effects are embedded by explicit state passing: the module-level
mutable cache becomes a `CacheState` value threaded through the operations,
network responses become parameters drawn from small inductive types
describing every outcome the TypeScript code distinguishes, and a `Bool`
records whether the operation actually issued a network request to the
remote task store.
-/

set_option autoImplicit false
set_option linter.unusedVariables false

namespace TodoApp

/-- Task entity as returned from the API (`src/types/index.ts`, `Task`). -/
structure Task where
  id : Nat
  title : String
  description : Option String
  is_completed : Bool
  created_at : String
  updated_at : String
  deriving Repr, DecidableEq

/-- Task creation payload (`src/types/index.ts`, `TaskCreate`):
`title` required, `description` optional/nullable. -/
structure TaskCreate where
  title : String
  description : Option String
  deriving Repr, DecidableEq

/-- Task update payload (`src/types/index.ts`, `TaskUpdate`): all fields
optional (partial update). -/
structure TaskUpdate where
  title : Option String := none
  description : Option String := none
  is_completed : Option Bool := none
  deriving Repr, DecidableEq

/-- Payload of the structured error body: the `error` field of the
`ApiError` response type, `{code, message, details?}`. The TypeScript
`details?: Record<string, unknown>` is embedded as an optional association
list. -/
structure ApiErrorInfo where
  code : String
  message : String
  details : Option (List (String × String))
  deriving Repr, DecidableEq

/-- API error response format (`src/types/index.ts`, `ApiError`):
a JSON object whose single field `error` holds code/message/details. -/
structure ApiError where
  error : ApiErrorInfo
  deriving Repr, DecidableEq

/-- Error value raised by the API client (`lib/api`, `class ApiRequestError
extends Error`), carrying `code`, `message` and optional `details`. -/
structure ApiRequestError where
  code : String
  message : String
  details : Option (List (String × String))
  deriving Repr, DecidableEq

/-- Possible outcomes of the `fetch("/api/token")` call performed by
`getAuthToken`, as distinguished by the TypeScript code:
a successful response whose JSON body may or may not carry a `token` field
(`respOk`, where `some ""` stands for an empty-string token, which is falsy
in JavaScript), a non-OK response (`respNotOk`), and a thrown transport
error (`fetchThrew`, caught by the `try`/`catch`). -/
inductive TokenFetch where
  | respOk (token : Option String)
  | respNotOk
  | fetchThrew
  deriving Repr, DecidableEq

/-- Body of the `try` block of `getAuthToken` (`lib/api`): it may throw
(modelled as `Except.error`), return `null` on a non-OK response, and
otherwise return `data?.token || null` — the `|| null` maps a missing or
empty (falsy) token to `null`. -/
def getAuthTokenTryBody (tf : TokenFetch) : Except Unit (Option String) :=
  match tf with
  | TokenFetch.fetchThrew => Except.error ()
  | TokenFetch.respNotOk => Except.ok none
  | TokenFetch.respOk tok =>
      match tok with
      | none => Except.ok none
      | some t => Except.ok (if t = "" then none else some t)

/-- Token bridge `getAuthToken` (`lib/api`): the `catch` clause converts any
thrown error into `null`, so the function is total with result type
`Option String` — it never raises to its caller. -/
def getAuthToken (tf : TokenFetch) : Option String :=
  match getAuthTokenTryBody tf with
  | Except.ok v => v
  | Except.error _ => none

/-- Possible outcomes of the `fetch` to the remote task store inside
`apiRequest`, for a response body of type `α`: a success response
(`response.ok`, with the parsed body; the 204 No Content case of `void`
operations is the `α := Unit` instance), or a non-success status whose
error body either parses to the structured `ApiError` shape (`some`) or is
unparsable (`none`, the `.catch` fallback in the source). -/
inductive FetchOutcome (α : Type) where
  | success (body : α)
  | httpError (errorBody : Option ApiError)
  deriving Repr, DecidableEq

/-- Request wrapper `apiRequest` (`lib/api`). Returns the result
(`Except.error` embeds `throw`) paired with a `Bool` that is `true` exactly
when the network request to the remote task store was issued. The token
check embeds the JavaScript `if (!token)`: both `null` and the empty string
are falsy. On a non-success status the error body is parsed, with the
fallback `{code: "UNKNOWN", message: "An error occurred"}` when unparsable,
and an `ApiRequestError` carrying code/message/details is raised.
`endpoint` and `method` shape only the real HTTP request; the response to
that request is the `resp` parameter. -/
def apiRequest {α : Type} (endpoint method : String) (tf : TokenFetch)
    (resp : FetchOutcome α) : Except ApiRequestError α × Bool :=
  match getAuthToken tf with
  | none => (Except.error ⟨"UNAUTHORIZED", "Not authenticated", none⟩, false)
  | some token =>
      if token = "" then
        (Except.error ⟨"UNAUTHORIZED", "Not authenticated", none⟩, false)
      else
        match resp with
        | FetchOutcome.success body => (Except.ok body, true)
        | FetchOutcome.httpError errBody =>
            let errorData := errBody.getD ⟨⟨"UNKNOWN", "An error occurred", none⟩⟩
            (Except.error ⟨errorData.error.code, errorData.error.message,
              errorData.error.details⟩, true)

/-- State of the module-level task read cache (`lib/api`): the two mutable
slots `tasksCache : Task[] | null` and `cacheTimestamp : number | null`. -/
structure CacheState where
  tasksCache : Option (List Task)
  cacheTimestamp : Option Nat
  deriving Repr, DecidableEq

/-- Cache TTL constant `CACHE_TTL = 30000` milliseconds (30 seconds). -/
def CACHE_TTL : Nat := 30000

/-- State produced by `clearApiCache` (`lib/api`): both slots nulled. -/
def clearApiCache : CacheState := ⟨none, none⟩

/-- Cache validity check `isCacheValid` (`lib/api`). The JavaScript guard
`if (!tasksCache || !cacheTimestamp) return false` is falsy-based: a `null`
task list, a `null` timestamp, and also a timestamp equal to `0` (zero is
falsy) all make the cache invalid. Otherwise the cache is valid when
`now - cacheTimestamp < CACHE_TTL`; truncated `Nat` subtraction agrees with
the JavaScript comparison also when `cacheTimestamp > now`, where both
yield validity. -/
def isCacheValid (now : Nat) (s : CacheState) : Bool :=
  match s.tasksCache, s.cacheTimestamp with
  | some _, some ts => decide (ts ≠ 0) && decide (now - ts < CACHE_TTL)
  | _, _ => false

deriving instance DecidableEq for Except

/-- Result of one task API operation: the returned (or thrown) value, the
cache state after the operation, and whether a network request to the
remote task store was issued. -/
structure MutResult (α : Type) where
  result : Except ApiRequestError α
  state : CacheState
  networkCalled : Bool
  deriving Repr, DecidableEq

/-- Operation `getTasks(forceRefresh = false)` (`lib/api`): serve the cached
list when not forced and the cache is valid (no network request);
otherwise issue the list request via `apiRequest` and, on success, replace
both cache slots together with the fresh snapshot and the current time.
On failure the raised error propagates and the cache is left unchanged. -/
def getTasks (forceRefresh : Bool) (now : Nat) (tf : TokenFetch)
    (resp : FetchOutcome (List Task)) (s : CacheState) : MutResult (List Task) :=
  if !forceRefresh && isCacheValid now s then
    ⟨Except.ok (s.tasksCache.getD []), s, false⟩
  else
    match apiRequest "/tasks" "GET" tf resp with
    | (Except.ok tasks, net) => ⟨Except.ok tasks, ⟨some tasks, some now⟩, net⟩
    | (Except.error e, net) => ⟨Except.error e, s, net⟩

/-- Operation `createTask` (`lib/api`): POST `/tasks`; on success
`clearApiCache()` runs before returning; on failure the raised error
propagates and the cache is left unchanged. -/
def createTask (tf : TokenFetch) (resp : FetchOutcome Task) (d : TaskCreate)
    (s : CacheState) : MutResult Task :=
  match apiRequest "/tasks" "POST" tf resp with
  | (Except.ok task, net) => ⟨Except.ok task, clearApiCache, net⟩
  | (Except.error e, net) => ⟨Except.error e, s, net⟩

/-- Operation `updateTask` (`lib/api`): PATCH `/tasks/:id`; on success
`clearApiCache()` runs before returning. -/
def updateTask (taskId : Nat) (tf : TokenFetch) (resp : FetchOutcome Task)
    (d : TaskUpdate) (s : CacheState) : MutResult Task :=
  match apiRequest ("/tasks/" ++ toString taskId) "PATCH" tf resp with
  | (Except.ok task, net) => ⟨Except.ok task, clearApiCache, net⟩
  | (Except.error e, net) => ⟨Except.error e, s, net⟩

/-- Operation `deleteTask` (`lib/api`): DELETE `/tasks/:id` (204 No Content
on success, hence result type `Unit`); on success `clearApiCache()` runs
before returning. -/
def deleteTask (taskId : Nat) (tf : TokenFetch) (resp : FetchOutcome Unit)
    (s : CacheState) : MutResult Unit :=
  match apiRequest ("/tasks/" ++ toString taskId) "DELETE" tf resp with
  | (Except.ok u, net) => ⟨Except.ok u, clearApiCache, net⟩
  | (Except.error e, net) => ⟨Except.error e, s, net⟩

/-- Operation `completeTask` (`lib/api`): POST `/tasks/:id/complete`; on
success `clearApiCache()` runs before returning. -/
def completeTask (taskId : Nat) (tf : TokenFetch) (resp : FetchOutcome Task)
    (s : CacheState) : MutResult Task :=
  match apiRequest ("/tasks/" ++ toString taskId ++ "/complete") "POST" tf resp with
  | (Except.ok task, net) => ⟨Except.ok task, clearApiCache, net⟩
  | (Except.error e, net) => ⟨Except.error e, s, net⟩

/-- Operation `uncompleteTask` (`lib/api`): DELETE `/tasks/:id/complete`;
on success `clearApiCache()` runs before returning. -/
def uncompleteTask (taskId : Nat) (tf : TokenFetch) (resp : FetchOutcome Task)
    (s : CacheState) : MutResult Task :=
  match apiRequest ("/tasks/" ++ toString taskId ++ "/complete") "DELETE" tf resp with
  | (Except.ok task, net) => ⟨Except.ok task, clearApiCache, net⟩
  | (Except.error e, net) => ⟨Except.error e, s, net⟩

/-- Substring test on character lists: does the second list occur
contiguously inside the first? Recursion over start positions, using the
boolean prefix test from the standard library. -/
def hasSubstrAux (pat : List Char) : List Char → Bool
  | [] => pat.isEmpty
  | c :: rest => pat.isPrefixOf (c :: rest) || hasSubstrAux pat rest

/-- Embedding of the JavaScript `s.includes(pat)` substring test used by the
dashboard controller on error messages. -/
def hasSubstr (s pat : String) : Bool := hasSubstrAux pat.toList s.toList

/-- Outcome of one run of the dashboard controller's `fetchTasks`
(`app/dashboard/page.tsx`): either the task list state is populated with
the fetched tasks, or the controller navigates to the login view (no task
data rendered, no error banner), or an inline error banner is set (whose
retry affordance re-invokes `fetchTasks`). The three outcomes are mutually
exclusive in the source: the catch clause returns right after
`router.push`, before `setError` is reached, and on the error paths
`setTasks` is never called. -/
inductive DashOutcome where
  | showTasks (tasks : List Task)
  | navigateLogin
  | inlineError (message : String)
  deriving Repr, DecidableEq

/-- Error dispatch of `fetchTasks` in the dashboard controller
(`app/dashboard/page.tsx`): on success the task state is populated; on a
caught error the controller redirects to login exactly when
`err.message.includes("UNAUTHORIZED") || err.message.includes("Not authenticated")`
(a substring test on the message, not an inspection of the error code), and
otherwise sets the inline error banner to the message. -/
def fetchTasksHandler (r : Except ApiRequestError (List Task)) : DashOutcome :=
  match r with
  | Except.ok tasks => DashOutcome.showTasks tasks
  | Except.error e =>
      if hasSubstr e.message "UNAUTHORIZED" || hasSubstr e.message "Not authenticated" then
        DashOutcome.navigateLogin
      else
        DashOutcome.inlineError e.message

/-- Controller action `fetchTasks` (`app/dashboard/page.tsx`): it always
calls `getTasks(true)` — a forced refresh — and dispatches on the outcome
via `fetchTasksHandler`. The retry affordance of the inline error banner
invokes this same function again. -/
def fetchTasks (now : Nat) (tf : TokenFetch) (resp : FetchOutcome (List Task))
    (s : CacheState) : DashOutcome × CacheState :=
  let r := getTasks true now tf resp s
  (fetchTasksHandler r.result, r.state)

/-- Observable steps performed by a logout handler, in execution order. -/
inductive LogoutEvent where
  | cacheCleared
  | signOutCalled
  | navigatedLogin
  deriving Repr, DecidableEq

/-- Event trace of `handleLogout` in the dashboard controller
(`app/dashboard/page.tsx`): `clearApiCache()`, then `await signOut()`, then
`router.push("/login")`, with no surrounding `try`/`catch` — when `signOut`
throws, the rejection propagates and the navigation never runs. -/
def dashboardHandleLogout (signOutThrows : Bool) : List LogoutEvent :=
  if signOutThrows then
    [LogoutEvent.cacheCleared, LogoutEvent.signOutCalled]
  else
    [LogoutEvent.cacheCleared, LogoutEvent.signOutCalled, LogoutEvent.navigatedLogin]

/-- Event trace of `LogoutButton.handleLogout` (`components/AuthForm.tsx`):
the `try` block runs `await signOut()`, then `clearApiCache()`, then
`router.push("/login")`; the `catch` clause also runs `clearApiCache()` and
`router.push("/login")` after a throwing `signOut`. In both branches the
session teardown attempt precedes the cache invalidation. -/
def logoutButtonHandleLogout (signOutThrows : Bool) : List LogoutEvent :=
  if signOutThrows then
    [LogoutEvent.signOutCalled, LogoutEvent.cacheCleared, LogoutEvent.navigatedLogin]
  else
    [LogoutEvent.signOutCalled, LogoutEvent.cacheCleared, LogoutEvent.navigatedLogin]

/-- Embedding of the JavaScript `value.trim()` used by the forms: strip
whitespace characters from both ends of the string (structurally recursive
over the character list, so that proofs can evaluate it). -/
def jsTrim (s : String) : String :=
  ⟨((s.data.dropWhile Char.isWhitespace).reverse.dropWhile Char.isWhitespace).reverse⟩

/-- Title validation `validateTitle` of the task creation form
(`components/TaskForm.tsx`): trim the value; an empty trimmed title yields
the message `"Title is required"` (the JavaScript `if (!trimmed)` tests for
the falsy empty string), a trimmed length above 200 yields
`"Title must be 200 characters or less"`, otherwise no error. -/
def validateTitle (value : String) : Option String :=
  let trimmed := jsTrim value
  if trimmed = "" then some "Title is required"
  else if 200 < trimmed.length then some "Title must be 200 characters or less"
  else none

/-- Submit step of the task creation form (`components/TaskForm.tsx`,
`handleSubmit`): when `validateTitle` reports an error the error message is
set and `onSubmit` is never invoked (first component `none`, second the
message); otherwise `onSubmit` receives the payload with the trimmed title
and `description.trim() || null` (empty trimmed description becomes
`null`). -/
def taskFormSubmit (title description : String) : Option TaskCreate × Option String :=
  match validateTitle title with
  | some err => (none, some err)
  | none =>
      (some ⟨jsTrim title,
        if jsTrim description = "" then none else some (jsTrim description)⟩, none)

/-- Character class `[^\s@]` of the email regex of `AuthForm`
(`components/AuthForm.tsx`): any character that is neither whitespace nor
the at sign. -/
def emailChar (c : Char) : Bool := !c.isWhitespace && c != '@'

/-- Inner-dot condition of the domain part of the email regex: the pattern
`[^\s@]+\.[^\s@]+` matches a string over the `[^\s@]` alphabet exactly when
some dot occurs at a position with at least one character before it and at
least one after it — i.e. a dot occurs in the list with its head and its
last element removed. -/
def hasInnerDot (l : List Char) : Bool :=
  match l with
  | [] => false
  | _ :: rest => rest.dropLast.contains '.'

/-- Email validation `validateEmail` of `AuthForm`
(`components/AuthForm.tsx`): the anchored regex
`^[^\s@]+@[^\s@]+\.[^\s@]+$`. Since the character class excludes the at
sign, the string must split at a unique `@` into a non-empty local part
over the class and a domain part over the class containing an inner dot. -/
def validateEmail (email : String) : Bool :=
  match email.splitOn "@" with
  | [localPart, domainPart] =>
      decide (0 < localPart.length) && localPart.toList.all emailChar &&
        domainPart.toList.all emailChar && hasInnerDot domainPart.toList
  | _ => false

/-- Password validation `validatePassword` of `AuthForm`: at least 8
characters. -/
def validatePassword (password : String) : Bool := 8 ≤ password.length

/-- Mode prop of `AuthForm`: the login or the signup form. -/
inductive AuthMode where
  | login
  | signup
  deriving Repr, DecidableEq

/-- Component state of `AuthForm` relevant to `handleSubmit`: the two
controlled inputs, the error banner, the `loading` state and the
`submittingRef` double-submit guard. -/
structure AuthFormState where
  email : String
  password : String
  error : Option String
  loading : Bool
  submitting : Bool
  deriving Repr, DecidableEq

/-- Sign-in or sign-up request issued by `AuthForm.handleSubmit`; for
signup the `name` payload field is the email prefix before the `@`. -/
structure AuthRequest where
  mode : AuthMode
  email : String
  password : String
  name : Option String
  deriving Repr, DecidableEq

/-- Synchronous prefix of `AuthForm.handleSubmit`
(`components/AuthForm.tsx`), up to the point where the sign-in/sign-up
request is issued (the first `await`): if `submittingRef.current` is set
the handler returns at once — no state change, no request; otherwise the
error is reset, client-side validation may set a validation message and
stop, and on valid input the guard and `loading` are set and exactly one
request is issued. Returns the state at the issuance point together with
the issued request, if any. -/
def handleSubmitStep (mode : AuthMode) (s : AuthFormState) :
    AuthFormState × Option AuthRequest :=
  if s.submitting then (s, none)
  else
    let s1 : AuthFormState := { s with error := none }
    if !validateEmail s1.email then
      ({ s1 with error := some "Please enter a valid email address" }, none)
    else if !validatePassword s1.password then
      ({ s1 with error := some "Password must be at least 8 characters" }, none)
    else
      ({ s1 with submitting := true, loading := true },
        some ⟨mode, s1.email, s1.password,
          match mode with
          | AuthMode.signup => some ((s1.email.splitOn "@").headD "")
          | AuthMode.login => none⟩)

/-- Consistency invariant of the two cache slots: the cached task list is
absent exactly when the timestamp is absent. -/
def cacheConsistent (s : CacheState) : Prop :=
  s.tasksCache = none ↔ s.cacheTimestamp = none

/-- Concrete task value used to instantiate theorems. -/
def sampleTask : Task := ⟨1, "sample", none, false, "2025-01-01", "2025-01-01"⟩

/-! ## Helper lemmas about the API client -/

/-- The token bridge never yields the empty string: `data?.token || null`
maps a falsy token to `null`. -/
theorem getAuthToken_not_empty (tf : TokenFetch) (t : String)
    (h : getAuthToken tf = some t) : t ≠ "" := by
  cases tf with
  | respOk tok =>
      cases tok with
      | none => simp [getAuthToken, getAuthTokenTryBody] at h
      | some u =>
          by_cases hu : u = ""
          · simp [getAuthToken, getAuthTokenTryBody, hu] at h
          · simp [getAuthToken, getAuthTokenTryBody, hu] at h
            exact h ▸ hu
  | respNotOk => simp [getAuthToken, getAuthTokenTryBody] at h
  | fetchThrew => simp [getAuthToken, getAuthTokenTryBody] at h

/-- When a token was acquired, `apiRequest` always issues the network
request. -/
theorem apiRequest_token_network {α : Type} (e m : String) (tf : TokenFetch)
    (resp : FetchOutcome α) (t : String) (h : getAuthToken tf = some t) :
    (apiRequest e m tf resp).2 = true := by
  have ht := getAuthToken_not_empty tf t h
  unfold apiRequest
  rw [h]
  simp only [if_neg ht]
  cases resp <;> rfl

/-- When `apiRequest` returns a successful result, the network request was
issued. -/
theorem apiRequest_ok_network {α : Type} (e m : String) (tf : TokenFetch)
    (resp : FetchOutcome α) (b : α) (net : Bool)
    (h : apiRequest e m tf resp = (Except.ok b, net)) : net = true := by
  unfold apiRequest at h
  cases hg : getAuthToken tf with
  | none => rw [hg] at h; simp at h
  | some t =>
      rw [hg] at h
      by_cases ht : t = ""
      · simp [ht] at h
      · simp only [if_neg ht] at h
        cases resp with
        | success body =>
            have := congrArg Prod.snd h
            simpa using this.symm
        | httpError eb => simp at h

/-- When a token was acquired and the remote store responds successfully,
`apiRequest` returns the parsed body and reports the network call. -/
theorem apiRequest_success {α : Type} (e m : String) (tf : TokenFetch) (b : α)
    (t : String) (h : getAuthToken tf = some t) :
    apiRequest e m tf (FetchOutcome.success b) = (Except.ok b, true) := by
  have ht := getAuthToken_not_empty tf t h
  unfold apiRequest
  rw [h]
  simp [if_neg ht]

/-! ## Claim theorems -/

/-- C5: for every task API operation, if token acquisition yields no token,
the operation fails immediately with an error of kind `UNAUTHORIZED` and no
network request to the remote task store is issued (and the cache is left
unchanged by the failed operation). -/
theorem c5_no_token_unauthorized_no_network (tf : TokenFetch)
    (h : getAuthToken tf = none) :
    (∀ (α : Type) (e m : String) (resp : FetchOutcome α),
        @apiRequest α e m tf resp
          = (Except.error ⟨"UNAUTHORIZED", "Not authenticated", none⟩, false))
  ∧ (∀ now resp s, getTasks true now tf resp s
      = ⟨Except.error ⟨"UNAUTHORIZED", "Not authenticated", none⟩, s, false⟩)
  ∧ (∀ resp d s, createTask tf resp d s
      = ⟨Except.error ⟨"UNAUTHORIZED", "Not authenticated", none⟩, s, false⟩)
  ∧ (∀ i resp d s, updateTask i tf resp d s
      = ⟨Except.error ⟨"UNAUTHORIZED", "Not authenticated", none⟩, s, false⟩)
  ∧ (∀ i resp s, deleteTask i tf resp s
      = ⟨Except.error ⟨"UNAUTHORIZED", "Not authenticated", none⟩, s, false⟩)
  ∧ (∀ i resp s, completeTask i tf resp s
      = ⟨Except.error ⟨"UNAUTHORIZED", "Not authenticated", none⟩, s, false⟩)
  ∧ (∀ i resp s, uncompleteTask i tf resp s
      = ⟨Except.error ⟨"UNAUTHORIZED", "Not authenticated", none⟩, s, false⟩) := by
  have hreq : ∀ (α : Type) (e m : String) (resp : FetchOutcome α),
      @apiRequest α e m tf resp
        = (Except.error ⟨"UNAUTHORIZED", "Not authenticated", none⟩, false) := by
    intro α e m resp
    unfold apiRequest
    rw [h]
  refine ⟨hreq, ?_, ?_, ?_, ?_, ?_, ?_⟩
  · intro now resp s
    unfold getTasks
    rw [hreq]
    simp
  · intro resp d s
    unfold createTask
    rw [hreq]
  · intro i resp d s
    unfold updateTask
    rw [hreq]
  · intro i resp s
    unfold deleteTask
    rw [hreq]
  · intro i resp s
    unfold completeTask
    rw [hreq]
  · intro i resp s
    unfold uncompleteTask
    rw [hreq]

/-- Witness for C5 at the concrete outcome of a non-OK token endpoint
response. -/
theorem c5_witness :
    getAuthToken TokenFetch.respNotOk = none
  ∧ createTask TokenFetch.respNotOk (FetchOutcome.success sampleTask)
      ⟨"t", none⟩ ⟨none, none⟩
      = ⟨Except.error ⟨"UNAUTHORIZED", "Not authenticated", none⟩, ⟨none, none⟩, false⟩ :=
  ⟨rfl, (c5_no_token_unauthorized_no_network TokenFetch.respNotOk rfl).2.2.1
    (FetchOutcome.success sampleTask) ⟨"t", none⟩ ⟨none, none⟩⟩

/-- C6: the token bridge returns `none` on a non-OK response from the token
endpoint, on a response body without a token (or with a falsy empty-string
token), and on a thrown transport error; it is a total function into
`Option String`, so it never raises to its caller — every outcome yields
either `none` or a non-empty token. -/
theorem c6_token_bridge_absent_never_raises :
    getAuthToken TokenFetch.respNotOk = none
  ∧ getAuthToken (TokenFetch.respOk none) = none
  ∧ getAuthToken TokenFetch.fetchThrew = none
  ∧ getAuthToken (TokenFetch.respOk (some "")) = none
  ∧ (∀ tf, getAuthToken tf = none ∨ ∃ t, getAuthToken tf = some t ∧ t ≠ "") := by
  refine ⟨rfl, rfl, rfl, by decide, ?_⟩
  intro tf
  cases htf : getAuthToken tf with
  | none => exact Or.inl rfl
  | some t => exact Or.inr ⟨t, rfl, getAuthToken_not_empty tf t htf⟩

/-- C7: every task API request that reaches the remote store and receives a
non-success status raises an `ApiRequestError` carrying the code, message
and optional details parsed from the structured error body; when the body
is unparsable the raised error carries code `UNKNOWN` and the generic
message. The error is raised (an `Except.error` result), never swallowed. -/
theorem c7_http_error_translation (α : Type) (e m : String) (tf : TokenFetch)
    (t : String) (h : getAuthToken tf = some t) :
    (∀ info : ApiErrorInfo,
      @apiRequest α e m tf (FetchOutcome.httpError (some ⟨info⟩))
        = (Except.error ⟨info.code, info.message, info.details⟩, true))
  ∧ @apiRequest α e m tf (FetchOutcome.httpError none)
      = (Except.error ⟨"UNKNOWN", "An error occurred", none⟩, true) := by
  have ht := getAuthToken_not_empty tf t h
  constructor
  · intro info
    unfold apiRequest
    rw [h]
    simp [if_neg ht]
  · unfold apiRequest
    rw [h]
    simp [if_neg ht]

/-- Witness for C7 with an acquired token, a parsable error body and an
unparsable one. -/
theorem c7_witness :
    getAuthToken (TokenFetch.respOk (some "tok")) = some "tok"
  ∧ @apiRequest Task "/tasks" "POST" (TokenFetch.respOk (some "tok"))
      (FetchOutcome.httpError (some ⟨⟨"VALIDATION", "Title too long", none⟩⟩))
      = (Except.error ⟨"VALIDATION", "Title too long", none⟩, true)
  ∧ @apiRequest Task "/tasks" "POST" (TokenFetch.respOk (some "tok"))
      (FetchOutcome.httpError none)
      = (Except.error ⟨"UNKNOWN", "An error occurred", none⟩, true) :=
  ⟨rfl,
    (c7_http_error_translation Task "/tasks" "POST" (TokenFetch.respOk (some "tok"))
      "tok" rfl).1 ⟨"VALIDATION", "Title too long", none⟩,
    (c7_http_error_translation Task "/tasks" "POST" (TokenFetch.respOk (some "tok"))
      "tok" rfl).2⟩

/-- C1: every mutating operation (`createTask`, `updateTask`, `deleteTask`,
`completeTask`, `uncompleteTask`) whose remote call succeeds invalidates
the task read cache before returning — the resulting cache state is
`clearApiCache`, with both the cached list and the timestamp cleared — for
every caller input; consequently a `getTasks` call issued on the cleared
cache never finds a valid cache and, whenever a token is acquired, issues
a network request. -/
theorem c1_mutation_invalidates_cache :
    (∀ tf resp d s task net,
      apiRequest "/tasks" "POST" tf resp = (Except.ok task, net) →
      createTask tf resp d s = ⟨Except.ok task, clearApiCache, net⟩)
  ∧ (∀ i tf resp d s task net,
      apiRequest ("/tasks/" ++ toString i) "PATCH" tf resp = (Except.ok task, net) →
      updateTask i tf resp d s = ⟨Except.ok task, clearApiCache, net⟩)
  ∧ (∀ i tf resp s u net,
      apiRequest ("/tasks/" ++ toString i) "DELETE" tf resp = (Except.ok u, net) →
      deleteTask i tf resp s = ⟨Except.ok u, clearApiCache, net⟩)
  ∧ (∀ i tf resp s task net,
      apiRequest ("/tasks/" ++ toString i ++ "/complete") "POST" tf resp
        = (Except.ok task, net) →
      completeTask i tf resp s = ⟨Except.ok task, clearApiCache, net⟩)
  ∧ (∀ i tf resp s task net,
      apiRequest ("/tasks/" ++ toString i ++ "/complete") "DELETE" tf resp
        = (Except.ok task, net) →
      uncompleteTask i tf resp s = ⟨Except.ok task, clearApiCache, net⟩)
  ∧ clearApiCache.tasksCache = none ∧ clearApiCache.cacheTimestamp = none
  ∧ (∀ now, isCacheValid now clearApiCache = false)
  ∧ (∀ now tf resp t, getAuthToken tf = some t →
      (getTasks false now tf resp clearApiCache).networkCalled = true) := by
  refine ⟨?_, ?_, ?_, ?_, ?_, rfl, rfl, fun now => rfl, ?_⟩
  · intro tf resp d s task net h
    unfold createTask
    rw [h]
  · intro i tf resp d s task net h
    unfold updateTask
    rw [h]
  · intro i tf resp s u net h
    unfold deleteTask
    rw [h]
  · intro i tf resp s task net h
    unfold completeTask
    rw [h]
  · intro i tf resp s task net h
    unfold uncompleteTask
    rw [h]
  · intro now tf resp t ht
    have hnet := apiRequest_token_network "/tasks" "GET" tf resp t ht
    unfold getTasks
    cases hp : apiRequest "/tasks" "GET" tf resp with
    | mk r net =>
        rw [hp] at hnet
        rw [show isCacheValid now clearApiCache = false from rfl]
        simp only [Bool.and_false, Bool.not_false, Bool.true_and, if_false]
        cases r <;> simpa using hnet

/-- Witness for C1: a successful creation from a populated cache clears
both slots, and a subsequent read on the cleared cache issues a network
request. -/
theorem c1_witness :
    apiRequest "/tasks" "POST" (TokenFetch.respOk (some "tok"))
      (FetchOutcome.success sampleTask) = (Except.ok sampleTask, true)
  ∧ createTask (TokenFetch.respOk (some "tok")) (FetchOutcome.success sampleTask)
      ⟨"t", none⟩ ⟨some [sampleTask], some 5⟩
      = ⟨Except.ok sampleTask, clearApiCache, true⟩
  ∧ getAuthToken (TokenFetch.respOk (some "tok")) = some "tok"
  ∧ (getTasks false 6 (TokenFetch.respOk (some "tok"))
      (FetchOutcome.success []) clearApiCache).networkCalled = true :=
  ⟨rfl,
    c1_mutation_invalidates_cache.1 (TokenFetch.respOk (some "tok"))
      (FetchOutcome.success sampleTask) ⟨"t", none⟩ ⟨some [sampleTask], some 5⟩
      sampleTask true rfl,
    rfl,
    c1_mutation_invalidates_cache.2.2.2.2.2.2.2.2 6 (TokenFetch.respOk (some "tok"))
      (FetchOutcome.success []) "tok" rfl⟩

/-- C2: a non-forced `getTasks` with a populated cache whose (nonzero)
timestamp is within the 30-second TTL serves the cached list without a
network call and leaves the state unchanged; otherwise — forced, or
invalid cache — a successful remote call replaces both cache slots
together and returns the fetched list, the network having been called.
Consequently two non-forced reads within the TTL starting from the cleared
cache issue exactly one network request: the first populates the cache,
the second serves it. The nonzero-timestamp hypothesis reflects that
stored timestamps are `Date.now()` values, never the falsy `0`. -/
theorem c2_getTasks_cache_semantics :
    (∀ now t l tf resp s, s.tasksCache = some l → s.cacheTimestamp = some t →
      t ≠ 0 → now - t < CACHE_TTL →
      getTasks false now tf resp s = ⟨Except.ok l, s, false⟩)
  ∧ (∀ f now tf resp s l net, (f = true ∨ isCacheValid now s = false) →
      apiRequest "/tasks" "GET" tf resp = (Except.ok l, net) →
      getTasks f now tf resp s = ⟨Except.ok l, ⟨some l, some now⟩, net⟩ ∧ net = true)
  ∧ (∀ t0 t1 l tf tf2 resp2 tok, getAuthToken tf = some tok →
      0 < t0 → t1 - t0 < CACHE_TTL →
      getTasks false t0 tf (FetchOutcome.success l) clearApiCache
        = ⟨Except.ok l, ⟨some l, some t0⟩, true⟩
      ∧ getTasks false t1 tf2 resp2 ⟨some l, some t0⟩
        = ⟨Except.ok l, ⟨some l, some t0⟩, false⟩) := by
  have hserve : ∀ now t l tf resp s, s.tasksCache = some l → s.cacheTimestamp = some t →
      t ≠ 0 → now - t < CACHE_TTL →
      getTasks false now tf resp s = ⟨Except.ok l, s, false⟩ := by
    intro now t l tf resp s hc hts htz hage
    obtain ⟨tc, ts⟩ := s
    simp only at hc hts
    subst hc
    subst hts
    unfold getTasks
    simp [isCacheValid, htz, hage]
  have hfetch : ∀ f now tf resp s l net, (f = true ∨ isCacheValid now s = false) →
      apiRequest "/tasks" "GET" tf resp = (Except.ok l, net) →
      getTasks f now tf resp s = ⟨Except.ok l, ⟨some l, some now⟩, net⟩ ∧ net = true := by
    intro f now tf resp s l net hor hreq
    refine ⟨?_, apiRequest_ok_network "/tasks" "GET" tf resp l net hreq⟩
    unfold getTasks
    rcases hor with hf | hv
    · subst hf
      rw [hreq]
      simp
    · rw [hv]
      rw [hreq]
      simp
  refine ⟨hserve, hfetch, ?_⟩
  intro t0 t1 l tf tf2 resp2 tok htok h0 hage
  constructor
  · exact (hfetch false t0 tf (FetchOutcome.success l) clearApiCache l true
      (Or.inr rfl) (apiRequest_success "/tasks" "GET" tf l tok htok)).1
  · exact hserve t1 t0 l tf2 resp2 ⟨some l, some t0⟩ rfl rfl (Nat.pos_iff_ne_zero.mp h0) hage

/-- Witness for C2: a concrete cache hit at age 5 ms, a concrete forced
refresh, and the concrete two-read scenario issuing one network call. -/
theorem c2_witness :
    getTasks false 10 TokenFetch.respNotOk (FetchOutcome.httpError none)
      ⟨some [sampleTask], some 5⟩
      = ⟨Except.ok [sampleTask], ⟨some [sampleTask], some 5⟩, false⟩
  ∧ (getTasks true 10 (TokenFetch.respOk (some "tok"))
      (FetchOutcome.success [sampleTask]) ⟨some [sampleTask], some 5⟩
      = ⟨Except.ok [sampleTask], ⟨some [sampleTask], some 10⟩, true⟩ ∧ True)
  ∧ getTasks false 7 (TokenFetch.respOk (some "tok"))
      (FetchOutcome.success [sampleTask]) clearApiCache
      = ⟨Except.ok [sampleTask], ⟨some [sampleTask], some 7⟩, true⟩
  ∧ getTasks false 20 TokenFetch.respNotOk (FetchOutcome.httpError none)
      ⟨some [sampleTask], some 7⟩
      = ⟨Except.ok [sampleTask], ⟨some [sampleTask], some 7⟩, false⟩ := by
  have h1 := c2_getTasks_cache_semantics.1 10 5 [sampleTask] TokenFetch.respNotOk
    (FetchOutcome.httpError none) ⟨some [sampleTask], some 5⟩ rfl rfl (by decide) (by decide)
  have h2 := c2_getTasks_cache_semantics.2.1 true 10 (TokenFetch.respOk (some "tok"))
    (FetchOutcome.success [sampleTask]) ⟨some [sampleTask], some 5⟩ [sampleTask] true
    (Or.inl rfl) (by rfl)
  have h3 := c2_getTasks_cache_semantics.2.2 7 20 [sampleTask]
    (TokenFetch.respOk (some "tok")) TokenFetch.respNotOk (FetchOutcome.httpError none)
    "tok" rfl (by decide) (by decide)
  exact ⟨h1, ⟨h2.1, trivial⟩, h3.1, h3.2⟩

/-- C10: the cache consistency invariant — the cached list is absent
exactly when the timestamp is absent — holds for the cleared cache and is
preserved by `getTasks` and by all five mutating operations; moreover
`isCacheValid` returns `false` whenever either slot is absent, so a
half-populated cache is never served. -/
theorem c10_cache_consistency :
    cacheConsistent clearApiCache
  ∧ (∀ f now tf resp s, cacheConsistent s →
      cacheConsistent (getTasks f now tf resp s).state)
  ∧ (∀ tf resp d s, cacheConsistent s →
      cacheConsistent (createTask tf resp d s).state)
  ∧ (∀ i tf resp d s, cacheConsistent s →
      cacheConsistent (updateTask i tf resp d s).state)
  ∧ (∀ i tf resp s, cacheConsistent s →
      cacheConsistent (deleteTask i tf resp s).state)
  ∧ (∀ i tf resp s, cacheConsistent s →
      cacheConsistent (completeTask i tf resp s).state)
  ∧ (∀ i tf resp s, cacheConsistent s →
      cacheConsistent (uncompleteTask i tf resp s).state)
  ∧ (∀ now s, s.tasksCache = none ∨ s.cacheTimestamp = none →
      isCacheValid now s = false) := by
  have hclear : cacheConsistent clearApiCache := by
    simp [cacheConsistent, clearApiCache]
  refine ⟨hclear, ?_, ?_, ?_, ?_, ?_, ?_, ?_⟩
  · intro f now tf resp s hs
    unfold getTasks
    by_cases hv : (!f && isCacheValid now s) = true
    · rw [if_pos hv]
      exact hs
    · rw [if_neg hv]
      cases hp : apiRequest "/tasks" "GET" tf resp with
      | mk r net =>
          cases r with
          | ok l => simp [cacheConsistent]
          | error e => exact hs
  · intro tf resp d s hs
    unfold createTask
    cases hp : apiRequest "/tasks" "POST" tf resp with
    | mk r net => cases r with
      | ok task => exact hclear
      | error e => exact hs
  · intro i tf resp d s hs
    unfold updateTask
    cases hp : apiRequest ("/tasks/" ++ toString i) "PATCH" tf resp with
    | mk r net => cases r with
      | ok task => exact hclear
      | error e => exact hs
  · intro i tf resp s hs
    unfold deleteTask
    cases hp : apiRequest ("/tasks/" ++ toString i) "DELETE" tf resp with
    | mk r net => cases r with
      | ok u => exact hclear
      | error e => exact hs
  · intro i tf resp s hs
    unfold completeTask
    cases hp : apiRequest ("/tasks/" ++ toString i ++ "/complete") "POST" tf resp with
    | mk r net => cases r with
      | ok task => exact hclear
      | error e => exact hs
  · intro i tf resp s hs
    unfold uncompleteTask
    cases hp : apiRequest ("/tasks/" ++ toString i ++ "/complete") "DELETE" tf resp with
    | mk r net => cases r with
      | ok task => exact hclear
      | error e => exact hs
  · intro now s h
    obtain ⟨tc, ts⟩ := s
    rcases h with h | h
    · simp only at h
      subst h
      rfl
    · simp only at h
      subst h
      cases tc <;> rfl

/-- Witness for C10: the invariant is preserved by a concrete successful
read, and a concrete half-populated cache is reported invalid. -/
theorem c10_witness :
    cacheConsistent ⟨some [sampleTask], some 5⟩
  ∧ cacheConsistent (getTasks true 10 (TokenFetch.respOk (some "tok"))
      (FetchOutcome.success []) ⟨some [sampleTask], some 5⟩).state
  ∧ isCacheValid 10 ⟨some [sampleTask], none⟩ = false :=
  ⟨by simp [cacheConsistent],
    c10_cache_consistency.2.1 true 10 (TokenFetch.respOk (some "tok"))
      (FetchOutcome.success []) ⟨some [sampleTask], some 5⟩ (by simp [cacheConsistent]),
    c10_cache_consistency.2.2.2.2.2.2.2 10 ⟨some [sampleTask], none⟩ (Or.inr rfl)⟩

/-- C3 counterexample: a list-fetch failure whose error kind is
`UNAUTHORIZED` but whose message is `"Token expired"` does not make the
dashboard controller navigate to login — the controller string-matches the
message, not the kind, and renders an inline error banner instead. -/
theorem c3_counterexample :
    fetchTasksHandler (Except.error ⟨"UNAUTHORIZED", "Token expired", none⟩)
      ≠ DashOutcome.navigateLogin
  ∧ fetchTasksHandler (Except.error ⟨"UNAUTHORIZED", "Token expired", none⟩)
      = DashOutcome.inlineError "Token expired" := by
  exact ⟨by decide, by decide⟩

/-- C3 (amended): the dashboard controller navigates to login exactly when
the failure's message contains `"UNAUTHORIZED"` or `"Not authenticated"`
as a substring (which covers the client-side missing-token failure, whose
message is `"Not authenticated"`); every failure whose message contains
neither substring — regardless of its kind — yields no navigation but an
inline error carrying the message, whose retry re-invokes the fetch with a
forced refresh: a forced `getTasks` never serves the cache and always
reflects the remote request's result. -/
theorem c3_amended_message_based_redirect :
    (∀ e : ApiRequestError,
      (hasSubstr e.message "UNAUTHORIZED" || hasSubstr e.message "Not authenticated") = true →
      fetchTasksHandler (Except.error e) = DashOutcome.navigateLogin)
  ∧ (∀ e : ApiRequestError,
      (hasSubstr e.message "UNAUTHORIZED" || hasSubstr e.message "Not authenticated") = false →
      fetchTasksHandler (Except.error e) = DashOutcome.inlineError e.message)
  ∧ fetchTasksHandler (Except.error ⟨"UNAUTHORIZED", "Not authenticated", none⟩)
      = DashOutcome.navigateLogin
  ∧ (∀ now tf resp s,
      (getTasks true now tf resp s).result = (apiRequest "/tasks" "GET" tf resp).1
      ∧ (getTasks true now tf resp s).networkCalled = (apiRequest "/tasks" "GET" tf resp).2
      ∧ fetchTasks now tf resp s
          = (fetchTasksHandler (getTasks true now tf resp s).result,
             (getTasks true now tf resp s).state)) := by
  refine ⟨?_, ?_, by decide, ?_⟩
  · intro e h
    have hred : fetchTasksHandler (Except.error e)
        = if (hasSubstr e.message "UNAUTHORIZED"
              || hasSubstr e.message "Not authenticated") = true
          then DashOutcome.navigateLogin
          else DashOutcome.inlineError e.message := rfl
    rw [hred, h]
    rfl
  · intro e h
    have hred : fetchTasksHandler (Except.error e)
        = if (hasSubstr e.message "UNAUTHORIZED"
              || hasSubstr e.message "Not authenticated") = true
          then DashOutcome.navigateLogin
          else DashOutcome.inlineError e.message := rfl
    rw [hred, h]
    simp
  · intro now tf resp s
    refine ⟨?_, ?_, rfl⟩ <;>
      · unfold getTasks
        cases hp : apiRequest "/tasks" "GET" tf resp with
        | mk r net => cases r <;> simp

/-- Witness for the amended C3 at a matching and a non-matching concrete
message. -/
theorem c3_amended_witness :
    (hasSubstr "Not authenticated" "UNAUTHORIZED"
      || hasSubstr "Not authenticated" "Not authenticated") = true
  ∧ fetchTasksHandler (Except.error ⟨"UNAUTHORIZED", "Not authenticated", none⟩)
      = DashOutcome.navigateLogin
  ∧ (hasSubstr "Network request failed" "UNAUTHORIZED"
      || hasSubstr "Network request failed" "Not authenticated") = false
  ∧ fetchTasksHandler (Except.error ⟨"NETWORK", "Network request failed", none⟩)
      = DashOutcome.inlineError "Network request failed" :=
  ⟨by decide,
    c3_amended_message_based_redirect.1 ⟨"UNAUTHORIZED", "Not authenticated", none⟩
      (by decide),
    by decide,
    c3_amended_message_based_redirect.2.1 ⟨"NETWORK", "Network request failed", none⟩
      (by decide)⟩

/-- C4 counterexample: the claim fails on both logout entry points — when
`signOut` throws, the dashboard logout handler never navigates to login
(no `try`/`catch` around the sequence), and in the LogoutButton handler the
session teardown precedes cache invalidation, not the claimed order. -/
theorem c4_counterexample :
    LogoutEvent.navigatedLogin ∉ dashboardHandleLogout true
  ∧ logoutButtonHandleLogout false
      = [LogoutEvent.signOutCalled, LogoutEvent.cacheCleared,
         LogoutEvent.navigatedLogin] := by
  exact ⟨by decide, rfl⟩

/-- C4 (amended): logout behaviour depends on the entry point. The
dashboard handler invalidates the cache, then terminates the session, then
navigates, in that order — but if terminating the session throws, the
redirect does not happen (the cache has already been invalidated). The
LogoutButton handler terminates the session first and then invalidates the
cache, and even when `signOut` throws, cache invalidation and the redirect
still occur. In every trace cache invalidation precedes navigation. -/
theorem c4_amended_logout_traces :
    dashboardHandleLogout false
      = [LogoutEvent.cacheCleared, LogoutEvent.signOutCalled,
         LogoutEvent.navigatedLogin]
  ∧ dashboardHandleLogout true
      = [LogoutEvent.cacheCleared, LogoutEvent.signOutCalled]
  ∧ (∀ b, logoutButtonHandleLogout b
      = [LogoutEvent.signOutCalled, LogoutEvent.cacheCleared,
         LogoutEvent.navigatedLogin]) := by
  refine ⟨rfl, rfl, ?_⟩
  intro b
  cases b <;> rfl

/-- Strings of length zero are the empty string. -/
theorem string_length_zero (s : String) (h : s.length = 0) : s = "" := by
  cases s with
  | mk data =>
      have hd : data = [] := List.length_eq_zero.mp h
      subst hd
      rfl

/-- C8: a task-creation submission whose post-trim title length is 0 or
exceeds 200 is rejected client-side — no payload reaches `onSubmit`, and a
validation message is set; a post-trim length between 1 and 200 passes
validation and submits the payload carrying the trimmed title and the
trimmed-or-null description. -/
theorem c8_title_validation :
    (∀ title desc, (jsTrim title).length = 0 ∨ 200 < (jsTrim title).length →
      (taskFormSubmit title desc).1 = none
      ∧ ((taskFormSubmit title desc).2).isSome = true)
  ∧ (∀ title desc, 1 ≤ (jsTrim title).length → (jsTrim title).length ≤ 200 →
      (taskFormSubmit title desc).1
        = some ⟨jsTrim title, if jsTrim desc = "" then none else some (jsTrim desc)⟩
      ∧ (taskFormSubmit title desc).2 = none) := by
  constructor
  · intro title desc h
    simp only [taskFormSubmit, validateTitle]
    rcases h with h | h
    · rw [if_pos (string_length_zero (jsTrim title) h)]
      exact ⟨rfl, rfl⟩
    · have hne : ¬ jsTrim title = "" := by
        intro he
        rw [he] at h
        exact absurd h (by decide)
      rw [if_neg hne, if_pos h]
      exact ⟨rfl, rfl⟩
  · intro title desc h1 h2
    have hne : ¬ jsTrim title = "" := by
      intro he
      rw [he] at h1
      exact absurd h1 (by decide)
    have hle : ¬ 200 < (jsTrim title).length := Nat.not_lt.mpr h2
    simp only [taskFormSubmit, validateTitle]
    rw [if_neg hne, if_neg hle]
    exact ⟨rfl, rfl⟩

set_option maxRecDepth 100000 in
/-- Witness for C8: the empty title and a 201-character title are rejected
without a payload; a 200-character title is submitted with its trimmed
title. -/
theorem c8_witness :
    ((jsTrim "").length = 0 ∨ 200 < (jsTrim "").length)
  ∧ (taskFormSubmit "" "d").1 = none
  ∧ ((jsTrim ("".pushn 'a' 201)).length = 0 ∨ 200 < (jsTrim ("".pushn 'a' 201)).length)
  ∧ (taskFormSubmit ("".pushn 'a' 201) "").1 = none
  ∧ 1 ≤ (jsTrim ("".pushn 'a' 200)).length ∧ (jsTrim ("".pushn 'a' 200)).length ≤ 200
  ∧ (taskFormSubmit ("".pushn 'a' 200) "").1
      = some ⟨jsTrim ("".pushn 'a' 200),
          if jsTrim "" = "" then none else some (jsTrim "")⟩ :=
  ⟨Or.inl (by decide),
    (c8_title_validation.1 "" "d" (Or.inl (by decide))).1,
    Or.inr (by decide),
    (c8_title_validation.1 ("".pushn 'a' 201) "" (Or.inr (by decide))).1,
    by decide, by decide,
    (c8_title_validation.2 ("".pushn 'a' 200) "" (by decide) (by decide)).1⟩

/-- C9: while a submission of the login/signup form is in flight (the
`submittingRef` guard is set), a further submission performs no state
change and issues no sign-in/sign-up request; and across two back-to-back
submissions from any state, the second one never issues a request — so two
rapid submissions produce at most the first one's request. -/
theorem c9_double_submit_guard :
    (∀ mode s, s.submitting = true → handleSubmitStep mode s = (s, none))
  ∧ (∀ mode s, (handleSubmitStep mode (handleSubmitStep mode s).1).2 = none) := by
  have hguard : ∀ mode s, s.submitting = true → handleSubmitStep mode s = (s, none) := by
    intro mode s hs
    unfold handleSubmitStep
    rw [if_pos hs]
  refine ⟨hguard, ?_⟩
  intro mode s
  cases hb : s.submitting with
  | true =>
      rw [hguard mode s hb]
      exact congrArg Prod.snd (hguard mode s hb)
  | false =>
      cases he : validateEmail s.email with
      | false =>
          have h1 : handleSubmitStep mode s
              = ({ s with error := some "Please enter a valid email address" }, none) := by
            unfold handleSubmitStep
            rw [if_neg (by simp [hb])]
            simp [he]
          rw [h1]
          unfold handleSubmitStep
          rw [if_neg (by simp [hb])]
          simp [he]
      | true =>
          cases hp : validatePassword s.password with
          | false =>
              have h1 : handleSubmitStep mode s
                  = ({ s with error := some "Password must be at least 8 characters" },
                     none) := by
                unfold handleSubmitStep
                rw [if_neg (by simp [hb])]
                simp [he, hp]
              rw [h1]
              unfold handleSubmitStep
              rw [if_neg (by simp [hb])]
              simp [he, hp]
          | true =>
              have h1 : (handleSubmitStep mode s).1
                  = { s with error := none, submitting := true, loading := true } := by
                unfold handleSubmitStep
                rw [if_neg (by simp [hb])]
                simp [he, hp]
              rw [h1]
              exact congrArg Prod.snd (hguard mode _ rfl)

/-- Witness for C9: a concrete in-flight state absorbs a second submission
unchanged and without a request. -/
theorem c9_witness :
    (⟨"a@b.cd", "password1", none, true, true⟩ : AuthFormState).submitting = true
  ∧ handleSubmitStep AuthMode.login ⟨"a@b.cd", "password1", none, true, true⟩
      = (⟨"a@b.cd", "password1", none, true, true⟩, none) :=
  ⟨rfl, c9_double_submit_guard.1 AuthMode.login
    ⟨"a@b.cd", "password1", none, true, true⟩ rfl⟩

end TodoApp
